import Mathlib

/-!
Verification of the causal-rationale-extraction evidence pipeline.

This file gives a shallow embedding, in Lean 4, of the core evidence
pipeline of the repository (span extraction, causal pattern detection,
evidence scoring, conversation context management and the two-task
orchestration), and proves or refutes the frozen specification claims
about it.

Conventions of the embedding:
* Python floats are modelled as exact rationals (`ℚ`); all the score
  arithmetic of the source uses only decimal literals, so this is exact.
* Python ints are modelled as `ℤ` where subtraction matters (turn
  indices), `ℕ` for sizes and counts.
* Python dicts that act as records are modelled as structures; dict keys
  that may be absent are modelled as `Option` fields, and read sites
  translate `d.get(key, default)` as `Option.getD`.
* Fallible external calls are modelled as `Except`-valued parameters.
-/

namespace CausalRationale

/-! ## String helpers (Python `in`, `str.split()`, `str.lower()`) -/

/-- Does the character list start with the given needle?  Models matching a
literal pattern at the head of a string. -/
def startsWithChars : List Char → List Char → Bool
  | [], _ => true
  | _ :: _, [] => false
  | a :: as, b :: bs => a == b && startsWithChars as bs

/-- Substring containment on character lists: Python `needle in hay`. -/
def containsSub : List Char → List Char → Bool
  | [], needle => needle.isEmpty
  | h :: t, needle => startsWithChars needle (h :: t) || containsSub t needle

/-- Python `needle in hay` for strings (substring containment). -/
def strContains (hay needle : String) : Bool :=
  containsSub hay.data needle.data

/-- Python `s.lower()`: lower-case every character (kept structural on
the character list so that the kernel can evaluate it). -/
def strLower (s : String) : String :=
  ⟨s.data.map Char.toLower⟩

/-- Python `s[:n]` on strings. -/
def strTake (s : String) (n : ℕ) : String :=
  ⟨s.data.take n⟩

/-- Accumulator loop for `splitWs`: the current word is carried reversed. -/
def splitWsAux (cur : List Char) : List Char → List (List Char)
  | [] => if cur.isEmpty then [] else [cur.reverse]
  | c :: rest =>
    if c.isWhitespace then
      if cur.isEmpty then splitWsAux [] rest
      else cur.reverse :: splitWsAux [] rest
    else splitWsAux (c :: cur) rest

/-- Python `s.split()`: split on whitespace runs, dropping empty pieces. -/
def splitWs (s : String) : List String :=
  (splitWsAux [] s.data).map (fun w => ⟨w⟩)

/-- Python `l[-n:]` for `n ≥ 1` (the source only uses `n = 2` and
`n = 3`): the last `n` elements of a list, the whole list when it is
shorter. -/
def lastN (n : ℕ) (l : List α) : List α :=
  l.drop (l.length - n)

/-! ## Data model: spans

A `Span` models the span dictionaries flowing through the pipeline
(`src/retrieval/span_extractor.py` creates them, the causal-analysis
stages attach annotation entries).  Identity fields are total; annotation
entries that a given span dict may lack are `Option` fields. -/

structure BehavioralPatterns where
  hesitation : Bool
  hesitation_count : ℕ
  frustration : Bool
  frustration_count : ℕ
  repetition : Bool
  repetition_count : ℕ
  escalation_signals : Bool
  escalation_signals_count : ℕ
  refund_signals : Bool
  refund_signals_count : ℕ
  churn_signals : Bool
  churn_signals_count : ℕ
  event_flag : Option Bool
  event_flag_count : Option ℕ
  deriving Repr, DecidableEq

structure Span where
  span_id : String
  text : String
  start_turn_index : ℤ
  end_turn_index : ℤ
  turn_ids : List ℤ
  speakers : List String
  transcript_id : String
  window_size : Option ℕ
  relevance_score : Option ℚ
  combined_score : Option ℚ
  similarity_score : Option ℚ
  temporal_indicators : Option ℕ
  causal_indicators : Option ℕ
  conditional_indicators : Option ℕ
  consequence_indicators : Option ℕ
  behavioral_patterns : Option BehavioralPatterns
  pattern_score : Option ℚ
  temporal_relation : Option String
  temporal_distance : Option ℤ
  temporal_score : Option ℚ
  sequential_indicators : Option ℕ
  sequential_score : Option ℚ
  evidence_score : Option ℚ
  evidence_components : Option (ℚ × ℚ × ℚ × ℚ)
  deriving Repr, DecidableEq

/-- A span dictionary with every optional annotation entry absent and
neutral identity fields; used as the `getD` default for list indexing. -/
def defaultSpan : Span where
  span_id := ""
  text := ""
  start_turn_index := 0
  end_turn_index := 0
  turn_ids := []
  speakers := []
  transcript_id := ""
  window_size := none
  relevance_score := none
  combined_score := none
  similarity_score := none
  temporal_indicators := none
  causal_indicators := none
  conditional_indicators := none
  consequence_indicators := none
  behavioral_patterns := none
  pattern_score := none
  temporal_relation := none
  temporal_distance := none
  temporal_score := none
  sequential_indicators := none
  sequential_score := none
  evidence_score := none
  evidence_components := none

instance : Inhabited Span := ⟨defaultSpan⟩

/-! ## Evidence scorer (`src/causal_analysis/evidence_scorer.py`) -/

/-- The four weights held by `EvidenceScorer.__init__`. -/
structure EvidenceScorer where
  relevance_weight : ℚ
  temporal_weight : ℚ
  pattern_weight : ℚ
  similarity_weight : ℚ
  deriving Repr, DecidableEq

/-- The default constructor arguments of `EvidenceScorer`
(0.4, 0.3, 0.2, 0.1). -/
def defaultScorer : EvidenceScorer :=
  { relevance_weight := 2/5
    temporal_weight := 3/10
    pattern_weight := 1/5
    similarity_weight := 1/10 }

/-- Reads `span.get('relevance_score', span.get('combined_score', 0.0))`. -/
def relevanceOf (s : Span) : ℚ :=
  s.relevance_score.getD (s.combined_score.getD 0)

/-- Reads `span.get('similarity_score', 0.0)`. -/
def similarityOf (s : Span) : ℚ :=
  s.similarity_score.getD 0

/-- Reads `span.get('pattern_score', 0.0)`. -/
def patternOf (s : Span) : ℚ :=
  s.pattern_score.getD 0

/-- Reads `span.get('temporal_score', 0.5)` (default if not calculated). -/
def temporalOf (s : Span) : ℚ :=
  s.temporal_score.getD (1/2)

/-- The per-span body of `EvidenceScorer.score_evidence`: extract the four
component scores, compute the weighted evidence score, and attach
`evidence_score` and `evidence_components` to a copy of the span. -/
def scoreSpan (sc : EvidenceScorer) (s : Span) : Span :=
  let relevance_score := relevanceOf s
  let similarity_score := similarityOf s
  let pattern_score := patternOf s
  let temporal_score := temporalOf s
  let evidence_score :=
    sc.relevance_weight * relevance_score +
    sc.temporal_weight * temporal_score +
    sc.pattern_weight * pattern_score +
    sc.similarity_weight * similarity_score
  { s with
    evidence_score := some evidence_score
    evidence_components :=
      some (relevance_score, temporal_score, pattern_score, similarity_score) }

/-- The sort key of `score_evidence` and `rank_evidence`:
`x.get('evidence_score', 0.0)`. -/
def evidenceKey (s : Span) : ℚ :=
  s.evidence_score.getD 0

/-- Stable descending insertion step: a (later) element is placed after
every already-present element with a strictly larger key and also after
equal keys, which is exactly the placement of a stable descending sort. -/
def insertDesc (key : α → ℚ) (x : α) : List α → List α
  | [] => [x]
  | y :: ys => if key x < key y then y :: insertDesc key x ys else x :: y :: ys

/-- Stable sort, descending by `key`.  Python's `list.sort(key=...,
reverse=True)` is a stable descending sort, which this insertion sort
implements (the output of a stable sort is unique). -/
def sortDescBy (key : α → ℚ) : List α → List α
  | [] => []
  | x :: xs => insertDesc key x (sortDescBy key xs)

/-- `EvidenceScorer.score_evidence`: score every span, then sort the
scored copies descending by evidence score.  The `query`, `event_type`
and `event_turn_index` parameters are accepted but unused, as in the
source. -/
def score_evidence (sc : EvidenceScorer) (spans : List Span)
    (_query : String) (_event_type : Option String)
    (_event_turn_index : Option ℤ) : List Span :=
  sortDescBy evidenceKey (spans.map (scoreSpan sc))

/-- `EvidenceScorer.rank_evidence`: re-score with an empty query when any
span lacks an evidence score, sort descending, truncate to `top_k`. -/
def rank_evidence (sc : EvidenceScorer) (spans : List Span)
    (top_k : Option ℕ) : List Span :=
  let spans :=
    if spans.all (fun s => s.evidence_score.isSome) then spans
    else score_evidence sc spans "" none none
  let ranked := sortDescBy evidenceKey spans
  match top_k with
  | some k => ranked.take k
  | none => ranked

/-! ### Sorting lemmas -/

theorem insertDesc_perm (key : α → ℚ) (x : α) (l : List α) :
    (insertDesc key x l).Perm (x :: l) := by
  induction l with
  | nil => simp [insertDesc]
  | cons y ys ih =>
    simp only [insertDesc]
    split
    · exact (ih.cons y).trans (List.Perm.swap x y ys)
    · exact List.Perm.refl _

theorem sortDescBy_perm (key : α → ℚ) (l : List α) :
    (sortDescBy key l).Perm l := by
  induction l with
  | nil => simp [sortDescBy]
  | cons x xs ih =>
    exact (insertDesc_perm key x (sortDescBy key xs)).trans (ih.cons x)

theorem insertDesc_sorted (key : α → ℚ) (x : α) (l : List α)
    (h : l.Pairwise (fun a b => key b ≤ key a)) :
    (insertDesc key x l).Pairwise (fun a b => key b ≤ key a) := by
  induction l with
  | nil => simp [insertDesc]
  | cons y ys ih =>
    rcases List.pairwise_cons.mp h with ⟨hy, hys⟩
    simp only [insertDesc]
    split
    · rename_i hlt
      refine List.pairwise_cons.mpr ⟨?_, ih hys⟩
      intro a ha
      rcases List.mem_cons.mp ((insertDesc_perm key x ys).mem_iff.mp ha) with rfl | ha'
      · exact le_of_lt hlt
      · exact hy a ha'
    · rename_i hge
      refine List.pairwise_cons.mpr ⟨?_, h⟩
      intro a ha
      rcases List.mem_cons.mp ha with rfl | ha'
      · exact le_of_not_lt hge
      · exact le_trans (hy a ha') (le_of_not_lt hge)

theorem sortDescBy_sorted (key : α → ℚ) (l : List α) :
    (sortDescBy key l).Pairwise (fun a b => key b ≤ key a) := by
  induction l with
  | nil => simp [sortDescBy]
  | cons x xs ih => exact insertDesc_sorted key x _ ih

/-- Stability of the insertion step: restricted to any fixed key value,
inserting preserves order (the inserted element goes first among its
equals, matching its position at the head of the unsorted remainder). -/
theorem insertDesc_filter_key (key : α → ℚ) (x : α) (l : List α) (c : ℚ) :
    (insertDesc key x l).filter (fun s => decide (key s = c)) =
      if key x = c then x :: l.filter (fun s => decide (key s = c))
      else l.filter (fun s => decide (key s = c)) := by
  induction l with
  | nil =>
    by_cases hxc : key x = c <;> simp [insertDesc, List.filter_cons, hxc]
  | cons y ys ih =>
    simp only [insertDesc]
    split
    · rename_i hlt
      by_cases hyc : key y = c
      · have hxc : key x ≠ c := by
          intro hxc
          rw [hxc] at hlt
          rw [hyc] at hlt
          exact lt_irrefl c hlt
        simp [List.filter_cons, hyc, hxc, ih]
      · simp [List.filter_cons, hyc, ih]
    · by_cases hxc : key x = c <;> simp [List.filter_cons, hxc]

theorem sortDescBy_filter_key (key : α → ℚ) (l : List α) (c : ℚ) :
    (sortDescBy key l).filter (fun s => decide (key s = c)) =
      l.filter (fun s => decide (key s = c)) := by
  induction l with
  | nil => rfl
  | cons x xs ih =>
    simp only [sortDescBy]
    rw [insertDesc_filter_key]
    by_cases hxc : key x = c <;> simp [hxc, ih, List.filter_cons]

/-- Mapping the sort key over the insertion step is insertion of the key
into the mapped list (with `id` as key on the `ℚ` level). -/
theorem map_key_insertDesc (key : α → ℚ) (x : α) (l : List α) :
    (insertDesc key x l).map key = insertDesc id (key x) (l.map key) := by
  induction l with
  | nil => simp [insertDesc]
  | cons y ys ih =>
    simp only [insertDesc, List.map_cons, id]
    split
    · simp [List.map_cons, ih]
    · simp [List.map_cons]

theorem map_key_sortDescBy (key : α → ℚ) (l : List α) :
    (sortDescBy key l).map key = sortDescBy id (l.map key) := by
  induction l with
  | nil => rfl
  | cons x xs ih => simp [sortDescBy, map_key_insertDesc, ih]

/-! ### Claim theorems about `score_evidence` -/

/-- A span carrying `relevance_score = 1` with temporal, pattern and
similarity scores all present and zero; the instance named by claim C1. -/
def exSpanC1 : Span :=
  { defaultSpan with
    relevance_score := some 1
    temporal_score := some 0
    pattern_score := some 0
    similarity_score := some 0 }

/-- C1: under the default weights, `score_evidence` assigns every output
span `evidence_score = 0.4·relevance + 0.3·temporal + 0.2·pattern +
0.1·similarity`, where temporal defaults to 0.5 when absent and relevance
falls back to the combined score (then 0); a span with relevance 1 and
temporal = pattern = similarity = 0 receives evidence score 0.4 = 2/5. -/
theorem scoreEvidence_weighted_formula :
    (∀ (spans : List Span) (q : String) (et : Option String) (ei : Option ℤ)
        (s : Span), s ∈ score_evidence defaultScorer spans q et ei →
        s.evidence_score =
          some (2/5 * relevanceOf s + 3/10 * temporalOf s + 1/5 * patternOf s +
            1/10 * similarityOf s)) ∧
    (∀ s : Span, s.relevance_score = some 1 → s.temporal_score = some 0 →
        s.pattern_score = some 0 → s.similarity_score = some 0 →
        (scoreSpan defaultScorer s).evidence_score = some (2/5)) := by
  constructor
  · intro spans q et ei s hs
    have hmem : s ∈ spans.map (scoreSpan defaultScorer) :=
      (sortDescBy_perm evidenceKey _).mem_iff.mp hs
    rcases List.mem_map.mp hmem with ⟨t, -, rfl⟩
    simp [scoreSpan, relevanceOf, temporalOf, patternOf, similarityOf,
      defaultScorer]
  · intro s h1 h2 h3 h4
    simp [scoreSpan, relevanceOf, temporalOf, patternOf, similarityOf,
      defaultScorer, h1, h2, h3, h4]

/-- Witness for C1: the formula and the 0.4 instance evaluated on the
concrete span `exSpanC1`. -/
theorem scoreEvidence_weighted_formula_witness :
    (scoreSpan defaultScorer exSpanC1).evidence_score = some (2/5) ∧
    (scoreSpan defaultScorer exSpanC1).evidence_score =
      some (2/5 * relevanceOf (scoreSpan defaultScorer exSpanC1) +
        3/10 * temporalOf (scoreSpan defaultScorer exSpanC1) +
        1/5 * patternOf (scoreSpan defaultScorer exSpanC1) +
        1/10 * similarityOf (scoreSpan defaultScorer exSpanC1)) :=
  ⟨scoreEvidence_weighted_formula.2 exSpanC1 rfl rfl rfl rfl,
   scoreEvidence_weighted_formula.1 [exSpanC1] "" none none _
     (List.mem_singleton_self _)⟩

/-- C7: the output of `score_evidence` is sorted non-increasing by
evidence score, and the subsequence of spans at any fixed evidence score
keeps the input order (stability), so the operation is deterministic
given the input order. -/
theorem scoreEvidence_sorted_and_stable :
    ∀ (sc : EvidenceScorer) (spans : List Span) (q : String)
      (et : Option String) (ei : Option ℤ),
      (score_evidence sc spans q et ei).Pairwise
        (fun a b => evidenceKey b ≤ evidenceKey a) ∧
      ∀ c : ℚ,
        (score_evidence sc spans q et ei).filter
          (fun s => decide (evidenceKey s = c)) =
        (spans.map (scoreSpan sc)).filter
          (fun s => decide (evidenceKey s = c)) := by
  intro sc spans q et ei
  exact ⟨sortDescBy_sorted evidenceKey _,
    fun c => sortDescBy_filter_key evidenceKey _ c⟩

/-- Forgetting the sequential annotation entries of a span. -/
def clearSequential (s : Span) : Span :=
  { s with sequential_indicators := none, sequential_score := none }

/-- C10: two spans identical except in `sequential_score` and
`sequential_indicators` receive equal evidence scores, and two span lists
identical except in those fields produce identical evidence-score
sequences after scoring and ranking: the sequential annotation never
influences `score_evidence`. -/
theorem scoreEvidence_ignores_sequential :
    (∀ (sc : EvidenceScorer) (s1 s2 : Span),
        clearSequential s1 = clearSequential s2 →
        (scoreSpan sc s1).evidence_score = (scoreSpan sc s2).evidence_score) ∧
    (∀ (sc : EvidenceScorer) (l1 l2 : List Span) (q1 q2 : String)
        (et1 et2 : Option String) (ei1 ei2 : Option ℤ),
        l1.map clearSequential = l2.map clearSequential →
        (score_evidence sc l1 q1 et1 ei1).map evidenceKey =
          (score_evidence sc l2 q2 et2 ei2).map evidenceKey) := by
  have hfield : ∀ (sc : EvidenceScorer) (s : Span),
      (scoreSpan sc s).evidence_score =
      some (sc.relevance_weight * relevanceOf (clearSequential s) +
        sc.temporal_weight * temporalOf (clearSequential s) +
        sc.pattern_weight * patternOf (clearSequential s) +
        sc.similarity_weight * similarityOf (clearSequential s)) :=
    fun sc s => rfl
  constructor
  · intro sc s1 s2 h
    rw [hfield sc s1, hfield sc s2, h]
  · intro sc l1 l2 q1 q2 et1 et2 ei1 ei2 h
    have hmap : ∀ l : List Span,
        (l.map (scoreSpan sc)).map evidenceKey =
          (l.map clearSequential).map
            (fun t => sc.relevance_weight * relevanceOf t +
              sc.temporal_weight * temporalOf t +
              sc.pattern_weight * patternOf t +
              sc.similarity_weight * similarityOf t) := by
      intro l
      rw [List.map_map, List.map_map]
      rfl
    unfold score_evidence
    rw [map_key_sortDescBy, map_key_sortDescBy, hmap, hmap, h]

/-- A span with a heavy sequential annotation. -/
def exSeqA : Span :=
  { defaultSpan with
    relevance_score := some (1/2)
    sequential_indicators := some 2
    sequential_score := some 1 }

/-- The same span with the sequential annotation zeroed out. -/
def exSeqB : Span :=
  { defaultSpan with
    relevance_score := some (1/2)
    sequential_indicators := some 0
    sequential_score := some 0 }

/-- Witness for C10: the two concrete spans differing only in their
sequential annotation score identically, alone and inside a list. -/
theorem scoreEvidence_ignores_sequential_witness :
    (scoreSpan defaultScorer exSeqA).evidence_score =
      (scoreSpan defaultScorer exSeqB).evidence_score ∧
    (score_evidence defaultScorer [exSeqA] "why" none none).map evidenceKey =
      (score_evidence defaultScorer [exSeqB] "" (some "escalation")
        (some 3)).map evidenceKey :=
  ⟨scoreEvidence_ignores_sequential.1 defaultScorer exSeqA exSeqB rfl,
   scoreEvidence_ignores_sequential.2 defaultScorer [exSeqA] [exSeqB]
     "why" "" none (some "escalation") none (some 3) rfl⟩

/-! ## Span extractor (`src/retrieval/span_extractor.py`) -/

/-- A turn dictionary as consumed by `SpanExtractor`; every key is read
with a `.get` default, so each field is optional. -/
structure Turn where
  turn_id : Option ℤ
  speaker : Option String
  text : Option String
  deriving Repr, DecidableEq

/-- `SpanExtractor._create_spans_from_turns`: every stride-1 window of
`window_size` consecutive turns.  The Python loop bound
`range(len(turns) - window_size + 1)` is computed in `ℤ` and clamped at
zero, matching `range` of a negative bound being empty. -/
def create_spans_from_turns (turns : List Turn) (transcript_id : String)
    (start_index : ℕ) (window_size : ℕ) : List Span :=
  (List.range ((turns.length : ℤ) - (window_size : ℤ) + 1).toNat).map
    (fun i =>
      let span_turns := (turns.drop i).take window_size
      { defaultSpan with
        span_id := transcript_id ++ "_causal_span_" ++ toString i
        text := " ".intercalate (span_turns.map (fun t => t.text.getD ""))
        start_turn_index := (start_index : ℤ) + i
        end_turn_index := (start_index : ℤ) + i + window_size - 1
        turn_ids := span_turns.enum.map
          (fun jt => jt.2.turn_id.getD ((start_index : ℤ) + i + jt.1))
        speakers := span_turns.map (fun t => t.speaker.getD "unknown")
        transcript_id := transcript_id
        window_size := some window_size })

/-- Reading off the turn ids when every turn carries one: the `getD`
defaults in the `enumFrom`-indexed read never fire. -/
theorem enumFrom_turn_ids (f : ℕ → ℤ) :
    ∀ (n : ℕ) (ts : List Turn) (ids : List ℤ),
      ts.map Turn.turn_id = ids.map some →
      (ts.enumFrom n).map (fun jt => jt.2.turn_id.getD (f jt.1)) = ids := by
  intro n ts
  induction ts generalizing n with
  | nil =>
    intro ids h
    cases ids with
    | nil => rfl
    | cons a as => simp at h
  | cons t ts ih =>
    intro ids h
    cases ids with
    | nil => simp at h
    | cons a as =>
      simp only [List.map_cons, List.cons.injEq] at h
      simp only [List.enumFrom, List.map_cons, h.1, Option.getD_some]
      exact congrArg _ (ih (n + 1) as h.2)

/-- C2 (amended): for a positive window `W ≤ N`, the sliding-window span
builder returns exactly `N - W + 1` spans, ordered by strictly increasing
start index; the `i`-th span starts at `si + i`, ends at `si + i + W - 1`
(so its width invariant `end + 1 = start + W` holds), and its turn ids
are exactly the ids of turns `i .. i+W-1` whenever every turn carries an
id.  For `W > N` (with `W ≥ 1` this includes the empty turn list) the
result is empty rather than an error. -/
theorem windowSpans_correct :
    (∀ (turns : List Turn) (tid : String) (si W : ℕ),
      1 ≤ W → W ≤ turns.length →
      (create_spans_from_turns turns tid si W).length = turns.length - W + 1 ∧
      (create_spans_from_turns turns tid si W).Pairwise
        (fun a b => a.start_turn_index < b.start_turn_index) ∧
      ∀ i : ℕ, i < turns.length - W + 1 →
        ((create_spans_from_turns turns tid si W).getD i
            defaultSpan).start_turn_index = (si : ℤ) + i ∧
        ((create_spans_from_turns turns tid si W).getD i
            defaultSpan).end_turn_index = (si : ℤ) + i + W - 1 ∧
        ((create_spans_from_turns turns tid si W).getD i
            defaultSpan).end_turn_index + 1 =
          ((create_spans_from_turns turns tid si W).getD i
            defaultSpan).start_turn_index + W ∧
        ∀ ids : List ℤ, turns.map Turn.turn_id = ids.map some →
          ((create_spans_from_turns turns tid si W).getD i
            defaultSpan).turn_ids = (ids.drop i).take W) ∧
    (∀ (turns : List Turn) (tid : String) (si W : ℕ),
      turns.length < W → create_spans_from_turns turns tid si W = []) := by
  constructor
  · intro turns tid si W hW hWN
    have hn : ((turns.length : ℤ) - (W : ℤ) + 1).toNat = turns.length - W + 1 := by
      omega
    refine ⟨?_, ?_, ?_⟩
    · simp [create_spans_from_turns, hn]
    · unfold create_spans_from_turns
      refine List.Pairwise.map _ ?_ (List.pairwise_lt_range _)
      intro a b hab
      simpa using hab
    · intro i hi
      have hi' : i < ((turns.length : ℤ) - (W : ℤ) + 1).toNat := by omega
      have hget : (create_spans_from_turns turns tid si W).getD i defaultSpan =
          (fun i : ℕ =>
            let span_turns := (turns.drop i).take W
            { defaultSpan with
              span_id := tid ++ "_causal_span_" ++ toString i
              text := " ".intercalate (span_turns.map (fun t => t.text.getD ""))
              start_turn_index := (si : ℤ) + i
              end_turn_index := (si : ℤ) + i + W - 1
              turn_ids := span_turns.enum.map
                (fun jt => jt.2.turn_id.getD ((si : ℤ) + i + jt.1))
              speakers := span_turns.map (fun t => t.speaker.getD "unknown")
              transcript_id := tid
              window_size := some W }) i := by
        unfold create_spans_from_turns
        rw [List.getD_eq_getElem?_getD, List.getElem?_map,
          List.getElem?_range hi']
        rfl
      rw [hget]
      refine ⟨rfl, rfl, by push_cast; ring, ?_⟩
      intro ids hids
      have hmap : ((turns.drop i).take W).map Turn.turn_id =
          ((ids.drop i).take W).map some := by
        simp only [List.map_take, List.map_drop]
        rw [hids]
      exact enumFrom_turn_ids (fun j => (si : ℤ) + i + j) 0 _ _ hmap
  · intro turns tid si W h
    have : ((turns.length : ℤ) - (W : ℤ) + 1).toNat = 0 := by omega
    simp [create_spans_from_turns, this]

/-- Counterexample to C2 as stated: for the empty turn list with window
size 0 the Python loop bound `range(0 - 0 + 1)` is `range(1)`, so one
degenerate span is produced — not the empty list the claim promises for
every empty turn list. -/
theorem windowSpans_empty_turns_cex :
    (create_spans_from_turns [] "t" 0 0).length = 1 ∧
    create_spans_from_turns [] "t" 0 0 ≠ [] := by
  refine ⟨rfl, ?_⟩
  intro h
  exact absurd (congrArg List.length h) (by decide)

/-- Three concrete turns carrying ids 10, 11, 12. -/
def exTurnsC2 : List Turn :=
  [⟨some 10, some "agent", some "a"⟩,
   ⟨some 11, some "customer", some "b"⟩,
   ⟨some 12, some "agent", some "c"⟩]

/-- Witness for the amended C2: three turns, window 2 — two spans, and the
second span's turn ids are the ids of turns 1 and 2; window 5 over the
empty list gives the empty result. -/
theorem windowSpans_correct_witness :
    (create_spans_from_turns exTurnsC2 "t" 0 2).length = 2 ∧
    ((create_spans_from_turns exTurnsC2 "t" 0 2).getD 1
      defaultSpan).turn_ids = [11, 12] ∧
    create_spans_from_turns [] "t" 0 5 = [] :=
  ⟨(windowSpans_correct.1 exTurnsC2 "t" 0 2 (by decide) (by decide)).1,
   ((windowSpans_correct.1 exTurnsC2 "t" 0 2 (by decide) (by decide)).2.2
     1 (by decide)).2.2.2 [10, 11, 12] rfl,
   windowSpans_correct.2 [] "t" 0 5 (by decide)⟩

/-! ## Pattern detector (`src/causal_analysis/pattern_detector.py`) -/

/-- A word character for the regex `\b` boundary (Python `\w`, restricted
to the ASCII texts of the lexicons and transcripts). -/
def wordChar (c : Char) : Bool :=
  c.isAlphanum || c == '_'

/-- Does the pattern `w` match in `t` at position `i` with `\b` boundaries
on both sides?  Every lexicon phrase starts and ends with a word
character, for which `\b` demands the adjacent text character (when there
is one) not be a word character. -/
def matchesAt (t w : List Char) (i : ℕ) : Bool :=
  startsWithChars w (t.drop i) &&
  (i == 0 || !wordChar (t.getD (i - 1) ' ')) &&
  (i + w.length == t.length || !wordChar (t.getD (i + w.length) ' '))

/-- Count of the `\b`-delimited occurrences of one pattern:
`len(re.findall(r'\b' + re.escape(p) + r'\b', text))`.  Counting match
positions agrees with `findall`'s non-overlapping scan because no lexicon
phrase overlaps itself. -/
def countPattern (t : List Char) (w : String) : ℕ :=
  ((List.range t.length).filter (fun i => matchesAt t w.data i)).length

/-- `CausalPatternDetector._count_indicators`: sum of the per-pattern
whole-word match counts over a lexicon. -/
def countIndicators (t : List Char) (indicators : List String) : ℕ :=
  (indicators.map (countPattern t)).sum

/-- The `causal_indicators['temporal']` lexicon. -/
def temporalLex : List String :=
  ["before", "after", "then", "next", "previously", "earlier", "later"]

/-- The `causal_indicators['causal']` lexicon. -/
def causalLex : List String :=
  ["because", "due to", "as a result", "led to", "caused", "resulted in"]

/-- The `causal_indicators['conditional']` lexicon. -/
def conditionalLex : List String :=
  ["if", "when", "unless", "provided that"]

/-- The `causal_indicators['consequence']` lexicon. -/
def consequenceLex : List String :=
  ["therefore", "thus", "hence", "consequently", "so"]

/-- The `behavioral_patterns` lexicons. -/
def hesitationLex : List String :=
  ["um", "uh", "well", "let me think", "hmm"]

def frustrationLex : List String :=
  ["frustrated", "annoyed", "upset", "disappointed"]

def repetitionLex : List String :=
  ["again", "repeat", "same", "once more"]

def escalationSignalsLex : List String :=
  ["supervisor", "manager", "escalate", "complaint", "formal"]

def refundSignalsLex : List String :=
  ["refund", "money back", "return", "cancel", "chargeback"]

def churnSignalsLex : List String :=
  ["cancel", "close account", "switch", "leave", "terminate"]

def escalationTriggersLex : List String :=
  ["not satisfied", "unhappy", "want to speak", "need manager",
   "file complaint", "not helping", "waste of time"]

def refundTriggersLex : List String :=
  ["not working", "defective", "broken", "not as described",
   "want money back", "dissatisfied", "poor quality"]

def churnTriggersLex : List String :=
  ["too expensive", "better option", "switching", "leaving",
   "not worth it", "found alternative", "better deal"]

/-- `CausalPatternDetector._get_event_specific_patterns`: substring match
on the lower-cased event type selects one extra trigger lexicon;
unmatched event types select none. -/
def get_event_specific_patterns (event_type : String) : Option (List String) :=
  let event_type_lower := strLower event_type
  if strContains event_type_lower "escalation" then some escalationTriggersLex
  else if strContains event_type_lower "refund" then some refundTriggersLex
  else if strContains event_type_lower "churn" then some churnTriggersLex
  else none

/-- `CausalPatternDetector._detect_behavioral_patterns`: a flag and a
count per behavioral lexicon, plus an `event_…` flag and count when an
event type is given and selects a trigger lexicon. -/
def detect_behavioral_patterns (t : List Char) (event_type : Option String) :
    BehavioralPatterns :=
  let eventCount := match event_type with
    | none => none
    | some et => (get_event_specific_patterns et).map (countIndicators t)
  { hesitation := decide (0 < countIndicators t hesitationLex)
    hesitation_count := countIndicators t hesitationLex
    frustration := decide (0 < countIndicators t frustrationLex)
    frustration_count := countIndicators t frustrationLex
    repetition := decide (0 < countIndicators t repetitionLex)
    repetition_count := countIndicators t repetitionLex
    escalation_signals := decide (0 < countIndicators t escalationSignalsLex)
    escalation_signals_count := countIndicators t escalationSignalsLex
    refund_signals := decide (0 < countIndicators t refundSignalsLex)
    refund_signals_count := countIndicators t refundSignalsLex
    churn_signals := decide (0 < countIndicators t churnSignalsLex)
    churn_signals_count := countIndicators t churnSignalsLex
    event_flag := eventCount.map (fun n => decide (0 < n))
    event_flag_count := eventCount }

/-- The boolean-typed entries of the behavioral dictionary, as read by the
bonus test in `_calculate_pattern_score`:
`any(behavioral.get(k, False) for k in behavioral.keys()
     if isinstance(behavioral.get(k), bool))`. -/
def anyBehavioralFlag (b : BehavioralPatterns) : Bool :=
  b.hesitation || b.frustration || b.repetition || b.escalation_signals ||
  b.refund_signals || b.churn_signals || b.event_flag.getD false

/-- The result dictionary of `CausalPatternDetector.detect_patterns`. -/
structure PatternResult where
  temporal_indicators : ℕ
  causal_indicators : ℕ
  conditional_indicators : ℕ
  consequence_indicators : ℕ
  behavioral_patterns : BehavioralPatterns
  pattern_score : ℚ
  deriving Repr, DecidableEq

/-- `CausalPatternDetector._calculate_pattern_score`: weighted sum of the
four indicator counts, each normalized by `min(count/5, 1)`, weights
0.2/0.4/0.2/0.2, plus a flat 0.2 bonus when any behavioral flag fired,
capped at 1. -/
def calculate_pattern_score (p : PatternResult) : ℚ :=
  let score :=
    1/5 * min ((p.temporal_indicators : ℚ) / 5) 1 +
    2/5 * min ((p.causal_indicators : ℚ) / 5) 1 +
    1/5 * min ((p.conditional_indicators : ℚ) / 5) 1 +
    1/5 * min ((p.consequence_indicators : ℚ) / 5) 1
  let score :=
    if anyBehavioralFlag p.behavioral_patterns then score + 1/5 else score
  min score 1

/-- `CausalPatternDetector.detect_patterns`: count the four indicator
categories and the behavioral flags over the lower-cased span text, then
attach the overall pattern score. -/
def detect_patterns (span : Span) (event_type : Option String) :
    PatternResult :=
  let text := (strLower span.text).data
  let patterns : PatternResult :=
    { temporal_indicators := countIndicators text temporalLex
      causal_indicators := countIndicators text causalLex
      conditional_indicators := countIndicators text conditionalLex
      consequence_indicators := countIndicators text consequenceLex
      behavioral_patterns := detect_behavioral_patterns text event_type
      pattern_score := 0 }
  { patterns with pattern_score := calculate_pattern_score patterns }

/-- `CausalAnalyzer.analyze_causal_spans`' per-span merge
`span_copy.update(patterns)`. -/
def mergePatterns (s : Span) (p : PatternResult) : Span :=
  { s with
    temporal_indicators := some p.temporal_indicators
    causal_indicators := some p.causal_indicators
    conditional_indicators := some p.conditional_indicators
    consequence_indicators := some p.consequence_indicators
    behavioral_patterns := some p.behavioral_patterns
    pattern_score := some p.pattern_score }

theorem calculate_pattern_score_eq (p : PatternResult) :
    calculate_pattern_score p =
      min (1/5 * min ((p.temporal_indicators : ℚ) / 5) 1 +
        2/5 * min ((p.causal_indicators : ℚ) / 5) 1 +
        1/5 * min ((p.conditional_indicators : ℚ) / 5) 1 +
        1/5 * min ((p.consequence_indicators : ℚ) / 5) 1 +
        (if anyBehavioralFlag p.behavioral_patterns then 1/5 else 0)) 1 := by
  unfold calculate_pattern_score
  by_cases h : anyBehavioralFlag p.behavioral_patterns <;> simp [h]

theorem calculate_pattern_score_bounds (p : PatternResult) :
    0 ≤ calculate_pattern_score p ∧ calculate_pattern_score p ≤ 1 := by
  have hmin : ∀ n : ℕ, (0 : ℚ) ≤ min ((n : ℚ) / 5) 1 :=
    fun n => le_min (by positivity) zero_le_one
  have h1 := hmin p.temporal_indicators
  have h2 := hmin p.causal_indicators
  have h3 := hmin p.conditional_indicators
  have h4 := hmin p.consequence_indicators
  rw [calculate_pattern_score_eq]
  constructor
  · refine le_min ?_ zero_le_one
    have hb : (0 : ℚ) ≤
        (if anyBehavioralFlag p.behavioral_patterns then (1 : ℚ)/5 else 0) := by
      split <;> norm_num
    linarith
  · exact min_le_right _ _

/-- C5: for every span and event type, `detect_patterns` records a
pattern score equal to the weighted sum of the four indicator counts,
each normalized by `min(count/5, 1)` with weights 0.2/0.4/0.2/0.2, plus a
flat 0.2 bonus when at least one behavioral flag (event-specific flags
included) fired, capped at 1; hence the score lies in `[0, 1]`. -/
theorem detectPatterns_score_formula :
    ∀ (s : Span) (et : Option String),
      (detect_patterns s et).pattern_score =
        min (1/5 * min (((detect_patterns s et).temporal_indicators : ℚ) / 5) 1 +
          2/5 * min (((detect_patterns s et).causal_indicators : ℚ) / 5) 1 +
          1/5 * min (((detect_patterns s et).conditional_indicators : ℚ) / 5) 1 +
          1/5 * min (((detect_patterns s et).consequence_indicators : ℚ) / 5) 1 +
          (if anyBehavioralFlag (detect_patterns s et).behavioral_patterns
            then 1/5 else 0)) 1 ∧
      0 ≤ (detect_patterns s et).pattern_score ∧
      (detect_patterns s et).pattern_score ≤ 1 := by
  intro s et
  have key : (detect_patterns s et).pattern_score =
      calculate_pattern_score (detect_patterns s et) := rfl
  refine ⟨?_, ?_, ?_⟩
  · rw [key, calculate_pattern_score_eq]
  · rw [key]
    exact (calculate_pattern_score_bounds _).1
  · rw [key]
    exact (calculate_pattern_score_bounds _).2

/-- The temporal distance computed by
`CausalPatternDetector.detect_temporal_patterns`: gap to the nearer span
boundary, 0 when the anchor turn lies inside the span. -/
def temporalDistanceOf (e : ℤ) (s : Span) : ℤ :=
  if s.end_turn_index < e then e - s.end_turn_index
  else if e < s.start_turn_index then s.start_turn_index - e
  else 0

/-- The temporal relation label of the same if-chain. -/
def temporalRelationOf (e : ℤ) (s : Span) : String :=
  if s.end_turn_index < e then "precedes"
  else if e < s.start_turn_index then "follows"
  else "overlaps"

/-- The temporal score: 1 at distance 0, else `1 / (1 + distance/10)`. -/
def temporalScoreOf (distance : ℤ) : ℚ :=
  if distance = 0 then 1 else 1 / (1 + (distance : ℚ) / 10)

/-- The per-span body of `detect_temporal_patterns`: annotate a copy of
the span with its relation, distance and temporal score. -/
def annotateTemporal (e : ℤ) (s : Span) : Span :=
  { s with
    temporal_relation := some (temporalRelationOf e s)
    temporal_distance := some (temporalDistanceOf e s)
    temporal_score := some (temporalScoreOf (temporalDistanceOf e s)) }

/-- `CausalPatternDetector.detect_temporal_patterns`. -/
def detect_temporal_patterns (spans : List Span) (event_turn_index : ℤ) :
    List Span :=
  spans.map (annotateTemporal event_turn_index)

/-- C6: `detect_temporal_patterns` classifies each span as `precedes`
when it ends before the event, `follows` when it starts after it, and
`overlaps` otherwise with distance 0; the attached score is 1 at
distance 0 and `1/(1 + distance/10)` otherwise, strictly decreasing in
the distance and always in `(0, 1]`. -/
theorem detectTemporal_classification_and_score :
    (∀ (spans : List Span) (e : ℤ) (s : Span), s ∈ spans →
      annotateTemporal e s ∈ detect_temporal_patterns spans e) ∧
    (∀ (e : ℤ) (s : Span),
      (s.end_turn_index < e →
        (annotateTemporal e s).temporal_relation = some "precedes" ∧
        (annotateTemporal e s).temporal_distance =
          some (e - s.end_turn_index)) ∧
      (¬s.end_turn_index < e → e < s.start_turn_index →
        (annotateTemporal e s).temporal_relation = some "follows" ∧
        (annotateTemporal e s).temporal_distance =
          some (s.start_turn_index - e)) ∧
      (¬s.end_turn_index < e → ¬e < s.start_turn_index →
        (annotateTemporal e s).temporal_relation = some "overlaps" ∧
        (annotateTemporal e s).temporal_distance = some 0) ∧
      (annotateTemporal e s).temporal_score =
        some (temporalScoreOf (temporalDistanceOf e s))) ∧
    (temporalScoreOf 0 = 1) ∧
    (∀ d : ℤ, 0 ≤ d → 0 < temporalScoreOf d ∧ temporalScoreOf d ≤ 1) ∧
    (∀ d1 d2 : ℤ, 0 ≤ d1 → d1 < d2 →
      temporalScoreOf d2 < temporalScoreOf d1) := by
  have hpos : ∀ d : ℤ, 0 ≤ d → (0 : ℚ) < 1 + (d : ℚ) / 10 := by
    intro d hd
    have : (0 : ℚ) ≤ (d : ℚ) := by exact_mod_cast hd
    linarith
  refine ⟨?_, ?_, rfl, ?_, ?_⟩
  · intro spans e s hs
    exact List.mem_map_of_mem _ hs
  · intro e s
    refine ⟨?_, ?_, ?_, rfl⟩
    · intro h
      simp [annotateTemporal, temporalRelationOf, temporalDistanceOf, h]
    · intro h1 h2
      simp [annotateTemporal, temporalRelationOf, temporalDistanceOf, h1, h2]
    · intro h1 h2
      simp [annotateTemporal, temporalRelationOf, temporalDistanceOf, h1, h2]
  · intro d hd
    unfold temporalScoreOf
    split
    · norm_num
    · rename_i hne
      constructor
      · positivity
      · rw [div_le_one (hpos d hd)]
        have : (0 : ℚ) ≤ (d : ℚ) := by exact_mod_cast hd
        linarith
  · intro d1 d2 h1 h12
    unfold temporalScoreOf
    have hd2 : ¬(d2 = 0) := by omega
    rw [if_neg hd2]
    have h2q : (d1 : ℚ) < (d2 : ℚ) := by exact_mod_cast h12
    split
    · rw [div_lt_one (hpos d2 (by omega))]
      have : (0 : ℚ) < (d2 : ℚ) := by exact_mod_cast (by omega : (0 : ℤ) < d2)
      linarith
    · apply one_div_lt_one_div_of_lt (hpos d1 h1)
      linarith

/-- A concrete span ending at turn 7, three turns before the anchor. -/
def exTemporalSpan : Span :=
  { defaultSpan with start_turn_index := 3, end_turn_index := 7 }

/-- Witness for C6: the span ending at 7 with anchor 10 precedes it at
distance 3, appears annotated in the output, and the score decreases
between distances 3 and 5 while staying in `(0, 1]`. -/
theorem detectTemporal_classification_and_score_witness :
    annotateTemporal 10 exTemporalSpan ∈
      detect_temporal_patterns [exTemporalSpan] 10 ∧
    (annotateTemporal 10 exTemporalSpan).temporal_relation =
      some "precedes" ∧
    (annotateTemporal 10 exTemporalSpan).temporal_distance = some 3 ∧
    (0 < temporalScoreOf 3 ∧ temporalScoreOf 3 ≤ 1) ∧
    temporalScoreOf 5 < temporalScoreOf 3 :=
  ⟨detectTemporal_classification_and_score.1 [exTemporalSpan] 10
      exTemporalSpan (List.mem_singleton_self _),
   ((detectTemporal_classification_and_score.2.1 10 exTemporalSpan).1
      (by decide)).1,
   ((detectTemporal_classification_and_score.2.1 10 exTemporalSpan).1
      (by decide)).2,
   detectTemporal_classification_and_score.2.2.2.1 3 (by decide),
   detectTemporal_classification_and_score.2.2.2.2 3 5 (by decide) (by decide)⟩

/-- `CausalPatternDetector._is_sequential`:
`abs(start2 - end1) <= 2` on the two spans' indices. -/
def isSequential (span1 span2 : Span) : Bool :=
  decide (|span2.start_turn_index - span1.end_turn_index| ≤ 2)

/-- Stable ascending insertion step on an integer key: an earlier element
walks past strictly smaller keys only, so it lands before its equals. -/
def insertAscZ (key : α → ℤ) (x : α) : List α → List α
  | [] => [x]
  | y :: ys => if key y < key x then y :: insertAscZ key x ys else x :: y :: ys

/-- Stable sort, ascending by an integer key: Python
`sorted(spans, key=lambda x: x.get('start_turn_index', 0))`. -/
def sortAscZBy (key : α → ℤ) : List α → List α
  | [] => []
  | x :: xs => insertAscZ key x (sortAscZBy key xs)

/-- The sort key of `detect_sequential_patterns`. -/
def startKey (s : Span) : ℤ :=
  s.start_turn_index

/-- The neighbor count of one loop iteration of
`detect_sequential_patterns`: one for a sequential predecessor (when one
exists) plus one for a sequential successor (when one exists). -/
def seqCount (prev : Option Span) (x : Span) (rest : List Span) : ℕ :=
  (match prev with
    | none => 0
    | some p => if isSequential p x then 1 else 0) +
  (match rest with
    | [] => 0
    | y :: _ => if isSequential x y then 1 else 0)

/-- The annotation loop of `detect_sequential_patterns` over the sorted
span list, carrying the previous span. -/
def annotateSeq : Option Span → List Span → List Span
  | _, [] => []
  | prev, x :: rest =>
    let n := seqCount prev x rest
    { x with
      sequential_indicators := some n
      sequential_score := some (min ((n : ℚ) / 2) 1) } :: annotateSeq (some x) rest

/-- `CausalPatternDetector.detect_sequential_patterns`: fewer than two
spans pass through unannotated; otherwise sort by start index and count
sequential sort-order neighbors per span. -/
def detect_sequential_patterns (spans : List Span) : List Span :=
  if spans.length < 2 then spans
  else annotateSeq none (sortAscZBy startKey spans)

/-- The neighbor count the amended claim C4 ascribes to position `i` of
the sorted span list: one when a predecessor exists and is sequential
with the span, plus one when a successor exists and the span is
sequential with it. -/
def annSeqCount (prev : Option Span) (l : List Span) (i : ℕ) : ℕ :=
  (if i = 0 then
    (match prev with
      | none => 0
      | some p => if isSequential p (l.getD 0 defaultSpan) then 1 else 0)
  else
    if isSequential (l.getD (i - 1) defaultSpan) (l.getD i defaultSpan)
      then 1 else 0) +
  (if i + 1 < l.length then
    (if isSequential (l.getD i defaultSpan) (l.getD (i + 1) defaultSpan)
      then 1 else 0)
  else 0)

theorem annotateSeq_length (l : List Span) :
    ∀ prev : Option Span, (annotateSeq prev l).length = l.length := by
  induction l with
  | nil => intro prev; rfl
  | cons x rest ih =>
    intro prev
    simp only [annotateSeq, List.length_cons, ih (some x)]

theorem insertAscZ_length (key : α → ℤ) (x : α) (l : List α) :
    (insertAscZ key x l).length = l.length + 1 := by
  induction l with
  | nil => rfl
  | cons y ys ih =>
    simp only [insertAscZ]
    split <;> simp [ih]

theorem sortAscZBy_length (key : α → ℤ) (l : List α) :
    (sortAscZBy key l).length = l.length := by
  induction l with
  | nil => rfl
  | cons x xs ih => simp [sortAscZBy, insertAscZ_length, ih]

theorem insertAscZ_perm (key : α → ℤ) (x : α) (l : List α) :
    (insertAscZ key x l).Perm (x :: l) := by
  induction l with
  | nil => simp [insertAscZ]
  | cons y ys ih =>
    simp only [insertAscZ]
    split
    · exact (ih.cons y).trans (List.Perm.swap x y ys)
    · exact List.Perm.refl _

theorem sortAscZBy_perm (key : α → ℤ) (l : List α) :
    (sortAscZBy key l).Perm l := by
  induction l with
  | nil => simp [sortAscZBy]
  | cons x xs ih =>
    exact (insertAscZ_perm key x (sortAscZBy key xs)).trans (ih.cons x)

theorem insertAscZ_sorted (key : α → ℤ) (x : α) (l : List α)
    (h : l.Pairwise (fun a b => key a ≤ key b)) :
    (insertAscZ key x l).Pairwise (fun a b => key a ≤ key b) := by
  induction l with
  | nil => simp [insertAscZ]
  | cons y ys ih =>
    rcases List.pairwise_cons.mp h with ⟨hy, hys⟩
    simp only [insertAscZ]
    split
    · rename_i hlt
      refine List.pairwise_cons.mpr ⟨?_, ih hys⟩
      intro a ha
      rcases List.mem_cons.mp ((insertAscZ_perm key x ys).mem_iff.mp ha) with
        rfl | ha'
      · exact le_of_lt hlt
      · exact hy a ha'
    · rename_i hge
      refine List.pairwise_cons.mpr ⟨?_, h⟩
      intro a ha
      rcases List.mem_cons.mp ha with rfl | ha'
      · exact le_of_not_lt hge
      · exact le_trans (le_of_not_lt hge) (hy a ha')

theorem sortAscZBy_sorted (key : α → ℤ) (l : List α) :
    (sortAscZBy key l).Pairwise (fun a b => key a ≤ key b) := by
  induction l with
  | nil => simp [sortAscZBy]
  | cons x xs ih => exact insertAscZ_sorted key x _ ih

theorem annSeqCount_cons (prev : Option Span) (x : Span) (rest : List Span)
    (j : ℕ) :
    annSeqCount (some x) rest j = annSeqCount prev (x :: rest) (j + 1) := by
  unfold annSeqCount
  cases j with
  | zero =>
    simp [List.getD_cons_succ, List.getD_cons_zero, Nat.succ_lt_succ_iff]
  | succ k =>
    simp [List.getD_cons_succ, Nat.succ_lt_succ_iff]

theorem annotateSeq_getD (l : List Span) :
    ∀ (prev : Option Span) (i : ℕ), i < l.length →
      (annotateSeq prev l).getD i defaultSpan =
        { l.getD i defaultSpan with
          sequential_indicators := some (annSeqCount prev l i)
          sequential_score :=
            some (min ((annSeqCount prev l i : ℚ) / 2) 1) } := by
  induction l with
  | nil =>
    intro prev i h
    simp at h
  | cons x rest ih =>
    intro prev i h
    cases i with
    | zero =>
      cases rest with
      | nil =>
        simp [annotateSeq, seqCount, annSeqCount]
      | cons y rest' =>
        simp [annotateSeq, seqCount, annSeqCount, List.getD_cons_zero,
          List.getD_cons_succ]
    | succ j =>
      have hj : j < rest.length := by
        simpa [Nat.succ_lt_succ_iff] using h
      have hstep : (annotateSeq prev (x :: rest)).getD (j + 1) defaultSpan =
          (annotateSeq (some x) rest).getD j defaultSpan := by
        simp [annotateSeq, List.getD_cons_succ]
      rw [hstep, ih (some x) j hj, List.getD_cons_succ,
        annSeqCount_cons prev x rest j]

/-- The first of two consecutive stride-1 windows of width 5. -/
def exWindow0 : Span :=
  { defaultSpan with
    span_id := "w0"
    start_turn_index := 0
    end_turn_index := 4 }

/-- The second of two consecutive stride-1 windows of width 5. -/
def exWindow1 : Span :=
  { defaultSpan with
    span_id := "w1"
    start_turn_index := 1
    end_turn_index := 5 }

/-- Counterexample to C4 as stated: the two consecutive stride-1
overlapping width-5 windows have signed gap `1 - 4 = -3 ≤ 2`, yet
`_is_sequential` compares `abs(start2 - end1) = 3 > 2`, so neither span
counts the other as a sequential neighbor — both get 0 indicators, not
the 1 the claim's reading ("gap at most 2", hence stride-1 windows
sequential) promises. -/
theorem detectSequential_overlap_cex :
    exWindow1.start_turn_index - exWindow0.end_turn_index ≤ 2 ∧
    isSequential exWindow0 exWindow1 = false ∧
    (detect_sequential_patterns [exWindow0, exWindow1]).map
      (fun s => s.sequential_indicators) = [some 0, some 0] ∧
    (detect_sequential_patterns [exWindow0, exWindow1]).map
      (fun s => s.sequential_indicators) ≠ [some 1, some 1] := by
  refine ⟨by decide, by decide, by decide, by decide⟩

/-- C4 (amended): `detect_sequential_patterns` sorts the spans by start
index (stably); two adjacent spans are sequential exactly when the
absolute difference between the second's start and the first's end is at
most 2 (so stride-1 overlapping windows are sequential only for window
widths at most 4); position `i` of the output is position `i` of the
sorted list annotated with `sequential_indicators` equal to its
sequential-neighbor count and `sequential_score = min(count/2, 1)`. -/
theorem detectSequential_neighbor_rule :
    (∀ s1 s2 : Span, isSequential s1 s2 = true ↔
      |s2.start_turn_index - s1.end_turn_index| ≤ 2) ∧
    (∀ spans : List Span, 2 ≤ spans.length →
      (detect_sequential_patterns spans).length = spans.length ∧
      (sortAscZBy startKey spans).Perm spans ∧
      (sortAscZBy startKey spans).Pairwise
        (fun a b => startKey a ≤ startKey b) ∧
      ∀ i : ℕ, i < spans.length →
        (detect_sequential_patterns spans).getD i defaultSpan =
          { (sortAscZBy startKey spans).getD i defaultSpan with
            sequential_indicators :=
              some (annSeqCount none (sortAscZBy startKey spans) i)
            sequential_score :=
              some (min
                ((annSeqCount none (sortAscZBy startKey spans) i : ℚ) / 2)
                1) }) := by
  constructor
  · intro s1 s2
    simp [isSequential]
  · intro spans hlen
    have hcond : ¬spans.length < 2 := by omega
    have hbody : detect_sequential_patterns spans =
        annotateSeq none (sortAscZBy startKey spans) := by
      simp [detect_sequential_patterns, hcond]
    refine ⟨?_, sortAscZBy_perm _ _, sortAscZBy_sorted _ _, ?_⟩
    · rw [hbody, annotateSeq_length, sortAscZBy_length]
    · intro i hi
      have hi' : i < (sortAscZBy startKey spans).length := by
        rw [sortAscZBy_length]
        exact hi
      rw [hbody, annotateSeq_getD _ none i hi']

/-- Three width-3 spans starting at turns 6, 0 and 3 (given unsorted). -/
def exChain : List Span :=
  [{ defaultSpan with start_turn_index := 6, end_turn_index := 8 },
   { defaultSpan with start_turn_index := 0, end_turn_index := 2 },
   { defaultSpan with start_turn_index := 3, end_turn_index := 5 }]

/-- Witness for the amended C4: on the three-span chain the middle span
of the sorted order has two sequential neighbors, and the gap rule is
exercised at a concrete pair. -/
theorem detectSequential_neighbor_rule_witness :
    ((detect_sequential_patterns exChain).getD 1
      defaultSpan).sequential_indicators = some 2 ∧
    ((detect_sequential_patterns exChain).getD 1
      defaultSpan).sequential_score = some 1 ∧
    isSequential (exChain.getD 1 defaultSpan) (exChain.getD 2 defaultSpan) =
      true := by
  have h := (detectSequential_neighbor_rule.2 exChain (by decide)).2.2.2 1
    (by decide)
  have hseq := (detectSequential_neighbor_rule.1 (exChain.getD 1 defaultSpan)
    (exChain.getD 2 defaultSpan)).mpr (by decide)
  have hc : annSeqCount none (sortAscZBy startKey exChain) 1 = 2 := by decide
  have h1 : ((detect_sequential_patterns exChain).getD 1
      defaultSpan).sequential_indicators =
      some (annSeqCount none (sortAscZBy startKey exChain) 1) :=
    congrArg Span.sequential_indicators h
  have h2 : ((detect_sequential_patterns exChain).getD 1
      defaultSpan).sequential_score =
      some (min ((annSeqCount none (sortAscZBy startKey exChain) 1 : ℚ) / 2)
        1) :=
    congrArg Span.sequential_score h
  refine ⟨?_, ?_, hseq⟩
  · rw [h1, hc]
  · rw [h2, hc]
    norm_num

/-! ## Context manager (`src/conversation_manager/context_manager.py`) -/

/-- The metadata dictionary attached to a recorded conversation turn by
the two orchestration paths. -/
structure TurnMeta where
  is_followup : Bool
  evidence_count : ℕ
  event_type : Option String
  enhanced_query : Option String
  deriving Repr, DecidableEq

/-- A `ConversationTurn` (the generated uuid and timestamp are dropped:
they are nondeterministic and no claim mentions them). -/
structure ConversationTurn where
  query : String
  response : String
  metadata : TurnMeta
  deriving Repr, DecidableEq

/-- A `ConversationContext`: the per-conversation append-only turn log. -/
structure ConversationContext where
  conversation_id : String
  turns : List ConversationTurn
  deriving Repr, DecidableEq

/-- The `ContextManager.conversations` dict, as an insertion-ordered
association list from conversation id to context. -/
abbrev Cm : Type := List (String × ConversationContext)

/-- `ContextManager.get_context`: dictionary lookup, `None` when the
conversation does not exist. -/
def get_context : Cm → String → Option ConversationContext
  | [], _ => none
  | (k, v) :: rest, cid => if k = cid then some v else get_context rest cid

/-- `ContextManager.get_or_create_conversation` for a given id: return
the stored context, inserting a fresh empty one first when absent. -/
def get_or_create (cm : Cm) (cid : String) : Cm × ConversationContext :=
  match get_context cm cid with
  | some c => (cm, c)
  | none => (cm ++ [(cid, ⟨cid, []⟩)], ⟨cid, []⟩)

/-- In-place mutation of the stored context object, as an update of its
dictionary slot. -/
def update_ctx (cm : Cm) (cid : String)
    (f : ConversationContext → ConversationContext) : Cm :=
  (cm : List (String × ConversationContext)).map
    (fun p => if p.1 = cid then (p.1, f p.2) else p)

/-- `ContextManager.add_turn`: get-or-create the conversation, then
append the turn to its log (`ConversationContext.add_turn`). -/
def add_turn (cm : Cm) (cid query response : String) (md : TurnMeta) : Cm :=
  update_ctx (get_or_create cm cid).1 cid
    (fun c => { c with turns := c.turns ++ [⟨query, response, md⟩] })

/-- The turn log recorded for an id (empty when the conversation does not
exist); the state observed by claim C9. -/
def turnsOf (cm : Cm) (cid : String) : List ConversationTurn :=
  match get_context cm cid with
  | some c => c.turns
  | none => []

/-- `ConversationContext.get_recent_turns`:
`self.turns[-n:] if len(self.turns) > n else self.turns`. -/
def get_recent_turns (c : ConversationContext) (n : ℕ) :
    List ConversationTurn :=
  if n < c.turns.length then lastN n c.turns else c.turns

/-- `ConversationContext.get_context_summary`: `Q:`/`A:` lines over the
last 3 turns, responses truncated to 200 characters. -/
def get_context_summary (c : ConversationContext) : String :=
  if c.turns.isEmpty then ""
  else
    "\n".intercalate ((get_recent_turns c 3).foldr
      (fun t acc =>
        ("Q: " ++ t.query) :: ("A: " ++ strTake t.response 200 ++ "...") :: acc)
      [])

/-- The `followup_indicators` list of `ContextManager.is_followup`. -/
def followup_indicators : List String :=
  ["also", "additionally", "furthermore", "moreover",
   "what about", "how about", "tell me more", "can you",
   "what else", "another", "other", "different",
   "it", "that", "this", "these", "those", "they"]

/-- The `pronouns` list of `ContextManager.is_followup`. -/
def pronouns : List String :=
  ["it", "that", "this", "these", "those", "they", "them"]

/-- The query-text heuristic of `ContextManager.is_followup`, applied
once the conversation is known to have turns: substring containment of
any indicator in the lower-cased query, else any whole
whitespace-separated word equal to a pronoun, else fewer than 5
whitespace-separated words. -/
def is_followup_heuristic (query : String) : Bool :=
  let query_lower := strLower query
  if followup_indicators.any (fun ind => strContains query_lower ind) then
    true
  else if (splitWs query_lower).any (fun w => pronouns.contains w) then
    true
  else if (splitWs query).length < 5 then
    true
  else
    false

/-- `ContextManager.is_followup`: false when the conversation does not
exist or has no turns, otherwise the query heuristic. -/
def is_followup (cm : Cm) (query cid : String) : Bool :=
  match get_context cm cid with
  | none => false
  | some conversation =>
    if conversation.turns.isEmpty then false
    else is_followup_heuristic query

/-- C3: `is_followup` is false whenever the conversation has no recorded
turns, regardless of the query; with at least one prior turn it is true
exactly when the lower-cased query contains a phrase of the fixed
follow-up-cue vocabulary (`followup_indicators`, substring containment),
or one of its whitespace-separated words is a bare pronoun
(it/that/this/these/those/they/them), or it has fewer than 5
whitespace-separated words; in particular `"what about it?"` is a
follow-up for any conversation with history. -/
theorem isFollowup_characterization :
    (∀ (cm : Cm) (query cid : String),
      turnsOf cm cid = [] → is_followup cm query cid = false) ∧
    (∀ (cm : Cm) (query cid : String),
      turnsOf cm cid ≠ [] →
      (is_followup cm query cid = true ↔
        (followup_indicators.any
          (fun ind => strContains (strLower query) ind) = true ∨
        (splitWs (strLower query)).any (fun w => pronouns.contains w) = true ∨
        (splitWs query).length < 5))) ∧
    (∀ (cm : Cm) (cid : String), turnsOf cm cid ≠ [] →
      is_followup cm "what about it?" cid = true) := by
  have heur : ∀ q : String, is_followup_heuristic q = true ↔
      (followup_indicators.any (fun ind => strContains (strLower q) ind) = true ∨
      (splitWs (strLower q)).any (fun w => pronouns.contains w) = true ∨
      (splitWs q).length < 5) := by
    intro q
    unfold is_followup_heuristic
    by_cases h1 :
        (followup_indicators.any (fun ind => strContains (strLower q) ind)) = true
    · simp [h1]
    · by_cases h2 :
          ((splitWs (strLower q)).any (fun w => pronouns.contains w)) = true
      · simp [h1, h2]
      · by_cases h3 : (splitWs q).length < 5
        · simp [h1, h2, h3]
        · simp [h1, h2, h3]
  have hpart2 : ∀ (cm : Cm) (query cid : String),
      turnsOf cm cid ≠ [] →
      (is_followup cm query cid = true ↔
        (followup_indicators.any
          (fun ind => strContains (strLower query) ind) = true ∨
        (splitWs (strLower query)).any (fun w => pronouns.contains w) = true ∨
        (splitWs query).length < 5)) := by
    intro cm query cid h
    unfold is_followup
    unfold turnsOf at h
    cases hg : get_context cm cid with
    | none =>
      rw [hg] at h
      exact absurd rfl h
    | some c =>
      rw [hg] at h
      have hne : c.turns.isEmpty = false := by
        simpa [List.isEmpty_iff] using h
      simp only [hne, Bool.false_eq_true, if_false]
      exact heur query
  refine ⟨?_, hpart2, ?_⟩
  · intro cm query cid h
    unfold is_followup
    unfold turnsOf at h
    cases hg : get_context cm cid with
    | none => rfl
    | some c =>
      rw [hg] at h
      have hc : c.turns = [] := by simpa using h
      simp [hc]
  · intro cm cid h
    exact (hpart2 cm "what about it?" cid h).mpr (Or.inl (by decide))

/-- A conversation store holding one conversation `c1` with one turn. -/
def exCm : Cm :=
  [("c1", ⟨"c1", [⟨"Why did the escalation happen?", "Because of delays.",
    ⟨false, 3, some "escalation", none⟩⟩]⟩)]

/-- Witness for C3: no history means not a follow-up even for
`"what about it?"`; with history, `"what about it?"` and a short query
are follow-ups. -/
theorem isFollowup_characterization_witness :
    is_followup [] "what about it?" "c1" = false ∧
    is_followup exCm "what about it?" "c1" = true ∧
    is_followup exCm "too short" "c1" = true :=
  ⟨isFollowup_characterization.1 [] "what about it?" "c1" rfl,
   isFollowup_characterization.2.2 exCm "c1" (by decide),
   (isFollowup_characterization.2.1 exCm "too short" "c1" (by decide)).mpr
     (Or.inr (Or.inr (by decide)))⟩

/-! ## Causal analyzer (`src/causal_analysis/causal_analyzer.py`) -/

/-- `CausalAnalyzer.analyze_causal_spans`: merge per-span pattern
detection, annotate temporally when an event index is given, always
annotate sequentially, then score and rank top-k. -/
def analyze_causal_spans (sc : EvidenceScorer) (spans : List Span)
    (query : String) (event_type : Option String)
    (event_turn_index : Option ℤ) (top_k : ℕ) : List Span :=
  let analyzed_spans :=
    spans.map (fun span => mergePatterns span (detect_patterns span event_type))
  let analyzed_spans :=
    match event_turn_index with
    | some e => detect_temporal_patterns analyzed_spans e
    | none => analyzed_spans
  let analyzed_spans := detect_sequential_patterns analyzed_spans
  let scored_spans :=
    score_evidence sc analyzed_spans query event_type event_turn_index
  rank_evidence sc scored_spans (some top_k)

/-! ## Orchestration (`followup_processor.py`, `task1_processor.py`,
`task2_processor.py`)

External collaborators (query parser, retrieval pipeline, explanation
generation) are modelled as function-valued dependencies; the two
generation calls may fail, modelled as `Except`. -/

/-- One item of the explicit context list handed to the follow-up
processor. -/
structure CtxItem where
  query : Option String
  response : Option String
  deriving Repr, DecidableEq

/-- The parsed-query dictionary; only `event_type` is consumed. -/
structure ParsedQuery where
  event_type : Option String
  deriving Repr, DecidableEq

/-- The result of `llm_generator.generate_with_citations`. -/
structure GenResult where
  explanation : String
  citations : List ℕ
  deriving Repr, DecidableEq

/-- The result of `generate_structured_explanation`. -/
structure StructuredGenResult where
  explanation : String
  summary : String
  key_factors : List String
  causal_mechanisms : List String
  evidence : List Span
  citations : List ℕ
  evidence_count : ℕ
  full_explanation : String
  deriving Repr, DecidableEq

/-- The external collaborators of the two processors. -/
structure ExternalDeps where
  parse_query : String → ParsedQuery
  retrieve_with_context : String → List CtxItem → ℕ → ℕ → List Span
  generate_with_citations :
    String → List Span → String → Except String GenResult
  generate_structured_explanation :
    String → ℕ → Option String → Except String StructuredGenResult

/-- `FollowUpProcessor._enhance_query_with_context`: empty context passes
the query through; otherwise prefix the last two context queries. -/
def enhance_query_with_context (query : String) (context : List CtxItem) :
    String :=
  if context.isEmpty then query
  else
    let context_queries := context.map (fun item => item.query.getD "")
    let enhanced_parts :=
      (if context_queries.isEmpty then []
      else ["Previous queries: " ++
        "; ".intercalate (lastN 2 context_queries)]) ++
      ["Current query: " ++ query]
    ". ".intercalate enhanced_parts

/-- The context resolution at the head of
`FollowUpProcessor.process_followup`: an explicitly passed context is
used as is; otherwise the last 3 recorded turns (empty when the
conversation does not exist). -/
def resolveContext (cm : Cm) (cid : String)
    (context : Option (List CtxItem)) : List CtxItem :=
  match context with
  | some c => c
  | none =>
    match get_context cm cid with
    | some conversation =>
      (get_recent_turns conversation 3).map
        (fun turn => ⟨some turn.query, some turn.response⟩)
    | none => []

/-- The analyzed span list of `process_followup`: retrieval with the
enhanced query (top_k 20, rerank 10) followed by causal analysis with
the parsed event type and top_k 10. -/
def followupAnalyzed (deps : ExternalDeps) (cm : Cm) (query cid : String)
    (context : Option (List CtxItem)) : List Span :=
  let enhanced_query :=
    enhance_query_with_context query (resolveContext cm cid context)
  let parsed_query := deps.parse_query enhanced_query
  let retrieved_spans :=
    deps.retrieve_with_context enhanced_query (resolveContext cm cid context)
      20 10
  analyze_causal_spans defaultScorer retrieved_spans enhanced_query
    parsed_query.event_type none 10

/-- The response dictionary of `process_followup`. -/
structure FollowupResponse where
  query : String
  enhanced_query : String
  is_followup : Bool
  parsed_query : ParsedQuery
  explanation : String
  evidence : List Span
  citations : List ℕ
  evidence_count : ℕ
  context_used : Bool
  context_turns : ℕ
  deriving Repr, DecidableEq

/-- `FollowUpProcessor.process_followup`.  State-threading order follows
the source: `get_context_summary` (which get-or-creates the
conversation) runs before generation, and the turn is appended only
after generation returns; a generation failure propagates with the state
as it stands at the call. -/
def process_followup (deps : ExternalDeps) (cm : Cm) (query cid : String)
    (context : Option (List CtxItem)) :
    Except String FollowupResponse × Cm :=
  let ctx := resolveContext cm cid context
  let is_followup_flag := is_followup cm query cid
  let enhanced_query := enhance_query_with_context query ctx
  let parsed_query := deps.parse_query enhanced_query
  let analyzed_spans := followupAnalyzed deps cm query cid context
  let cm1 := (get_or_create cm cid).1
  let context_summary := get_context_summary (get_or_create cm cid).2
  match deps.generate_with_citations enhanced_query analyzed_spans
      context_summary with
  | .error e => (.error e, cm1)
  | .ok g =>
    let response : FollowupResponse :=
      { query := query
        enhanced_query := enhanced_query
        is_followup := is_followup_flag
        parsed_query := parsed_query
        explanation := g.explanation
        evidence := analyzed_spans
        citations := g.citations
        evidence_count := analyzed_spans.length
        context_used := !ctx.isEmpty
        context_turns := ctx.length }
    let cm2 := add_turn cm1 cid query g.explanation
      ⟨is_followup_flag, analyzed_spans.length, none, some enhanced_query⟩
    (.ok response, cm2)

/-- The result dictionary of `Task1Processor.process_query` (fields the
orchestration consumes). -/
structure Task1Result where
  query : String
  parsed_query : ParsedQuery
  evidence : List Span
  citations : List ℕ
  evidence_count : ℕ
  full_explanation : String
  deriving Repr, DecidableEq

/-- `Task1Processor.process_query`: parse, then generate the structured
explanation (top_k 10); a generation failure propagates. -/
def task1_process_query (deps : ExternalDeps) (query : String) :
    Except String Task1Result :=
  let parsed_query := deps.parse_query query
  match deps.generate_structured_explanation query 10
      parsed_query.event_type with
  | .error e => .error e
  | .ok g =>
    .ok { query := query
          parsed_query := parsed_query
          evidence := g.evidence
          citations := g.citations
          evidence_count := g.evidence_count
          full_explanation := g.full_explanation }

/-- The formatted API response (fields the claims consume): both
`format_response` implementations put the generated text under
`response`. -/
structure FormattedResponse where
  response : String
  evidence_count : ℕ
  conversation_id : Option String
  is_followup : Option Bool
  deriving Repr, DecidableEq

/-- `Task1Processor.format_response`. -/
def task1_format_response (r : Task1Result) : FormattedResponse :=
  { response := r.full_explanation
    evidence_count := r.evidence_count
    conversation_id := none
    is_followup := none }

/-- `FollowUpProcessor.format_response`. -/
def format_followup_response (r : FollowupResponse) : FormattedResponse :=
  { response := r.explanation
    evidence_count := r.evidence_count
    conversation_id := none
    is_followup := some r.is_followup }

/-- `Task2Processor.process_query`: resolve the conversation id (creating
a fresh conversation when none is given — the generated uuid is the
`freshId` parameter), decide follow-up vs. initial, dispatch, and on the
initial path append the turn after task-1 processing succeeds. -/
def task2_resolved (cm : Cm) (conversation_id : Option String)
    (freshId : String) : Cm × String :=
  match conversation_id with
  | some c => (cm, c)
  | none =>
    let created := get_or_create cm freshId
    (created.1, created.2.conversation_id)

/-- The dispatch condition of `Task2Processor.process_query`:
`is_followup and (context or self.context_manager.get_context(...))`,
with Python truthiness of the optional context list and of the optional
stored context. -/
def task2_condition (cm0 : Cm) (query cid : String)
    (context : Option (List CtxItem)) : Bool :=
  is_followup cm0 query cid &&
  ((match context with
    | some l => !l.isEmpty
    | none => false) ||
  (get_context cm0 cid).isSome)

def task2_process_query (deps : ExternalDeps) (cm : Cm) (query : String)
    (conversation_id : Option String) (context : Option (List CtxItem))
    (freshId : String) : Except String FormattedResponse × Cm :=
  let cm0 := (task2_resolved cm conversation_id freshId).1
  let cid := (task2_resolved cm conversation_id freshId).2
  if task2_condition cm0 query cid context then
    match process_followup deps cm0 query cid context with
    | (.error e, cm') => (.error e, cm')
    | (.ok r, cm') => (.ok (format_followup_response r), cm')
  else
    match task1_process_query deps query with
    | .error e => (.error e, cm0)
    | .ok result =>
      let formatted := task1_format_response result
      let cm1 := add_turn cm0 cid query formatted.response
        ⟨false, result.evidence_count, result.parsed_query.event_type, none⟩
      (.ok { formatted with
              conversation_id := some cid
              is_followup := some false }, cm1)

theorem get_context_append (cm : Cm) (p : String × ConversationContext)
    (c : String) :
    get_context (cm ++ [p]) c =
      match get_context cm c with
      | some v => some v
      | none => if p.1 = c then some p.2 else none := by
  induction cm with
  | nil => rfl
  | cons q rest ih =>
    obtain ⟨k, v⟩ := q
    by_cases hk : k = c <;> simp [get_context, hk, ih]

theorem turnsOf_get_or_create (cm : Cm) (cid c : String) :
    turnsOf (get_or_create cm cid).1 c = turnsOf cm c := by
  unfold get_or_create
  cases hg : get_context cm cid with
  | some ctx => rfl
  | none =>
    unfold turnsOf
    rw [get_context_append]
    cases hc : get_context cm c with
    | some v => rfl
    | none =>
      by_cases hcc : cid = c
      · subst hcc
        simp [hg]
      · simp [hcc]

theorem get_or_create_turns (cm : Cm) (cid : String) :
    (get_or_create cm cid).2.turns = turnsOf cm cid := by
  unfold get_or_create turnsOf
  cases hg : get_context cm cid <;> rfl

theorem get_context_cons (k : String) (v : ConversationContext) (rest : Cm)
    (c : String) :
    get_context ((k, v) :: rest) c =
      if k = c then some v else get_context rest c := rfl

theorem get_context_update_self (cm : Cm) (cid : String)
    (f : ConversationContext → ConversationContext) :
    get_context (update_ctx cm cid f) cid = (get_context cm cid).map f := by
  induction cm with
  | nil => rfl
  | cons q rest ih =>
    obtain ⟨k, v⟩ := q
    simp only [update_ctx, List.map_cons]
    by_cases hk : k = cid
    · rw [if_pos (show (k, v).1 = cid from hk)]
      rw [get_context_cons, get_context_cons, if_pos hk, if_pos hk]
      rfl
    · rw [if_neg (show ¬(k, v).1 = cid from hk)]
      rw [get_context_cons, get_context_cons, if_neg hk, if_neg hk]
      exact ih

theorem get_context_update_other (cm : Cm) (cid c : String)
    (f : ConversationContext → ConversationContext) (hc : c ≠ cid) :
    get_context (update_ctx cm cid f) c = get_context cm c := by
  induction cm with
  | nil => rfl
  | cons q rest ih =>
    obtain ⟨k, v⟩ := q
    simp only [update_ctx, List.map_cons]
    by_cases hk : k = cid
    · rw [if_pos (show (k, v).1 = cid from hk)]
      rw [get_context_cons, get_context_cons]
      by_cases hkc : k = c
      · exact absurd (hkc.symm.trans hk) hc
      · rw [if_neg hkc, if_neg hkc]
        exact ih
    · rw [if_neg (show ¬(k, v).1 = cid from hk)]
      rw [get_context_cons, get_context_cons]
      by_cases hkc : k = c
      · rw [if_pos hkc, if_pos hkc]
      · rw [if_neg hkc, if_neg hkc]
        exact ih

theorem turnsOf_add_turn_self (cm : Cm) (cid q r : String) (md : TurnMeta) :
    turnsOf (add_turn cm cid q r md) cid =
      turnsOf cm cid ++ [⟨q, r, md⟩] := by
  unfold add_turn
  have hsome : get_context (get_or_create cm cid).1 cid =
      some (get_or_create cm cid).2 := by
    unfold get_or_create
    cases hg : get_context cm cid with
    | some ctx => exact hg
    | none =>
      rw [get_context_append]
      simp [hg]
  unfold turnsOf
  rw [get_context_update_self, hsome]
  simp [get_or_create_turns, turnsOf]

theorem turnsOf_add_turn_other (cm : Cm) (cid q r : String) (md : TurnMeta)
    (c : String) (hc : c ≠ cid) :
    turnsOf (add_turn cm cid q r md) c = turnsOf cm c := by
  unfold add_turn
  unfold turnsOf
  rw [get_context_update_other _ _ _ _ hc]
  have h := turnsOf_get_or_create cm cid c
  unfold turnsOf at h
  exact h

theorem process_followup_error (deps : ExternalDeps) (cm : Cm)
    (query cid : String) (context : Option (List CtxItem)) (e : String)
    (hgen : deps.generate_with_citations
        (enhance_query_with_context query (resolveContext cm cid context))
        (followupAnalyzed deps cm query cid context)
        (get_context_summary (get_or_create cm cid).2) = .error e) :
    process_followup deps cm query cid context =
      (.error e, (get_or_create cm cid).1) := by
  simp only [process_followup]
  rw [hgen]

theorem process_followup_ok_state (deps : ExternalDeps) (cm : Cm)
    (query cid : String) (context : Option (List CtxItem)) (g : GenResult)
    (hgen : deps.generate_with_citations
        (enhance_query_with_context query (resolveContext cm cid context))
        (followupAnalyzed deps cm query cid context)
        (get_context_summary (get_or_create cm cid).2) = .ok g) :
    (process_followup deps cm query cid context).2 =
      add_turn (get_or_create cm cid).1 cid query g.explanation
        ⟨is_followup cm query cid,
        (followupAnalyzed deps cm query cid context).length, none,
        some (enhance_query_with_context query
          (resolveContext cm cid context))⟩ ∧
    (process_followup deps cm query cid context).1 =
      .ok { query := query
            enhanced_query := enhance_query_with_context query
              (resolveContext cm cid context)
            is_followup := is_followup cm query cid
            parsed_query := deps.parse_query (enhance_query_with_context query
              (resolveContext cm cid context))
            explanation := g.explanation
            evidence := followupAnalyzed deps cm query cid context
            citations := g.citations
            evidence_count := (followupAnalyzed deps cm query cid context).length
            context_used := !(resolveContext cm cid context).isEmpty
            context_turns := (resolveContext cm cid context).length } := by
  simp only [process_followup]
  rw [hgen]
  exact ⟨rfl, rfl⟩

/-- C9: when the external explanation-generation call fails, neither
`process_followup` nor `Task2Processor.process_query` records a turn —
every conversation's turn log after the failed request equals its log
before it (the turn is appended only after generation succeeds). -/
theorem externalFailure_preserves_turns :
    (∀ (deps : ExternalDeps) (cm : Cm) (query cid : String)
        (context : Option (List CtxItem)) (e : String),
      (process_followup deps cm query cid context).1 = .error e →
      ∀ c : String,
        turnsOf (process_followup deps cm query cid context).2 c =
          turnsOf cm c) ∧
    (∀ (deps : ExternalDeps) (cm : Cm) (query : String)
        (conversation_id : Option String) (context : Option (List CtxItem))
        (freshId : String) (e : String),
      (task2_process_query deps cm query conversation_id context freshId).1 =
        .error e →
      ∀ c : String,
        turnsOf (task2_process_query deps cm query conversation_id context
          freshId).2 c = turnsOf cm c) := by
  have hpf : ∀ (deps : ExternalDeps) (cm : Cm) (query cid : String)
      (context : Option (List CtxItem)) (e : String),
      (process_followup deps cm query cid context).1 = .error e →
      ∀ c : String,
        turnsOf (process_followup deps cm query cid context).2 c =
          turnsOf cm c := by
    intro deps cm query cid context e h c
    cases hgen : deps.generate_with_citations
        (enhance_query_with_context query (resolveContext cm cid context))
        (followupAnalyzed deps cm query cid context)
        (get_context_summary (get_or_create cm cid).2) with
    | error e' =>
      rw [process_followup_error deps cm query cid context e' hgen]
      exact turnsOf_get_or_create cm cid c
    | ok g =>
      rw [(process_followup_ok_state deps cm query cid context g hgen).2] at h
      exact absurd h (by simp)
  refine ⟨hpf, ?_⟩
  intro deps cm query cid? context freshId e h c
  have hres : ∀ c' : String,
      turnsOf (task2_resolved cm cid? freshId).1 c' = turnsOf cm c' := by
    intro c'
    cases cid? with
    | some c0 => rfl
    | none => exact turnsOf_get_or_create cm freshId c'
  by_cases hcond : task2_condition (task2_resolved cm cid? freshId).1 query
      (task2_resolved cm cid? freshId).2 context = true
  · rcases hpf2 : process_followup deps (task2_resolved cm cid? freshId).1
        query (task2_resolved cm cid? freshId).2 context with ⟨res, st⟩
    cases res with
    | error e' =>
      have h1 : (process_followup deps (task2_resolved cm cid? freshId).1
          query (task2_resolved cm cid? freshId).2 context).1 = .error e' := by
        rw [hpf2]
      have h2 := hpf deps (task2_resolved cm cid? freshId).1 query
        (task2_resolved cm cid? freshId).2 context e' h1 c
      rw [hpf2] at h2
      have h3 : task2_process_query deps cm query cid? context freshId =
          (.error e', st) := by
        simp only [task2_process_query]
        rw [if_pos hcond, hpf2]
      rw [h3]
      exact h2.trans (hres c)
    | ok r =>
      have h3 : task2_process_query deps cm query cid? context freshId =
          (.ok (format_followup_response r), st) := by
        simp only [task2_process_query]
        rw [if_pos hcond, hpf2]
      rw [h3] at h
      exact absurd h (by simp)
  · cases ht : task1_process_query deps query with
    | error e' =>
      have h3 : task2_process_query deps cm query cid? context freshId =
          (.error e', (task2_resolved cm cid? freshId).1) := by
        simp only [task2_process_query]
        rw [if_neg hcond, ht]
      rw [h3]
      exact hres c
    | ok result =>
      have h3 : (task2_process_query deps cm query cid? context freshId).1 =
          .ok { task1_format_response result with
                conversation_id := some (task2_resolved cm cid? freshId).2
                is_followup := some false } := by
        simp only [task2_process_query]
        rw [if_neg hcond, ht]
      rw [h3] at h
      exact absurd h (by simp)

theorem intercalate_pair (s a b : String) : s.intercalate [a, b] = a ++ s ++ b :=
  rfl

/-- C8: with a non-empty context the enhanced query is exactly
`"Previous queries: " ++ (last 2 context queries joined by "; ") ++
". Current query: " ++ query`; with no prior query the query passes
through unchanged; and on success the turn appended to the conversation
records the original query (not the enhanced one) with metadata
`is_followup`, `evidence_count` and `enhanced_query`. -/
theorem followup_enhanced_query_and_turn :
    (∀ query : String, enhance_query_with_context query [] = query) ∧
    (∀ (query : String) (context : List CtxItem), context ≠ [] →
      enhance_query_with_context query context =
        "Previous queries: " ++
        "; ".intercalate (lastN 2 (context.map (fun it => it.query.getD ""))) ++
        ". Current query: " ++ query) ∧
    (∀ (deps : ExternalDeps) (cm : Cm) (query cid : String)
        (context : Option (List CtxItem)) (g : GenResult),
      deps.generate_with_citations
          (enhance_query_with_context query (resolveContext cm cid context))
          (followupAnalyzed deps cm query cid context)
          (get_context_summary (get_or_create cm cid).2) = .ok g →
      turnsOf (process_followup deps cm query cid context).2 cid =
        turnsOf cm cid ++
          [⟨query, g.explanation,
            ⟨is_followup cm query cid,
            (followupAnalyzed deps cm query cid context).length, none,
            some (enhance_query_with_context query
              (resolveContext cm cid context))⟩⟩]) := by
  refine ⟨fun query => rfl, ?_, ?_⟩
  · intro query context hne
    have h1 : ¬(context.isEmpty = true) := by
      simp [List.isEmpty_iff]
      exact hne
    have h2 : ¬((context.map fun it => it.query.getD "").isEmpty = true) := by
      simp [List.isEmpty_iff]
      exact hne
    simp only [enhance_query_with_context, if_neg h1, if_neg h2,
      List.singleton_append]
    rw [intercalate_pair]
    simp only [String.append_assoc]
    have hlit : (". " : String) ++ "Current query: " = ". Current query: " := by
      decide
    rw [← hlit, String.append_assoc]
  · intro deps cm query cid context g hgen
    rw [(process_followup_ok_state deps cm query cid context g hgen).1,
      turnsOf_add_turn_self, turnsOf_get_or_create]

/-- External collaborators whose generation calls always succeed with a
fixed explanation. -/
def okDeps : ExternalDeps :=
  { parse_query := fun _ => ⟨none⟩
    retrieve_with_context := fun _ _ _ _ => []
    generate_with_citations := fun _ _ _ =>
      .ok ⟨"Generated explanation.", []⟩
    generate_structured_explanation := fun _ _ _ =>
      .ok ⟨"e", "s", [], [], [], [], 0, "full explanation"⟩ }

/-- An explicit context of three prior exchanges. -/
def exCtxTriple : List CtxItem :=
  [⟨some "first question", some "r1"⟩,
   ⟨some "second question", some "r2"⟩,
   ⟨some "third question", some "r3"⟩]

/-- Witness for C8: the pass-through case, the exact enhanced string for
a concrete three-item context (last two queries kept), and the recorded
turn after a successful follow-up against the one-turn store `exCm`. -/
theorem followup_enhanced_query_and_turn_witness :
    enhance_query_with_context "plain query" [] = "plain query" ∧
    enhance_query_with_context "what about that?" exCtxTriple =
      "Previous queries: " ++
        "; ".intercalate (lastN 2
          (exCtxTriple.map (fun it => it.query.getD ""))) ++
        ". Current query: " ++ "what about that?" ∧
    enhance_query_with_context "what about that?" exCtxTriple =
      "Previous queries: second question; third question. Current query: what about that?" ∧
    turnsOf (process_followup okDeps exCm "what about that?" "c1" none).2
        "c1" =
      turnsOf exCm "c1" ++
        [⟨"what about that?", "Generated explanation.",
          ⟨is_followup exCm "what about that?" "c1",
          (followupAnalyzed okDeps exCm "what about that?" "c1" none).length,
          none,
          some (enhance_query_with_context "what about that?"
            (resolveContext exCm "c1" none))⟩⟩] :=
  ⟨followup_enhanced_query_and_turn.1 "plain query",
   followup_enhanced_query_and_turn.2.1 "what about that?" exCtxTriple
     (by decide),
   by decide,
   followup_enhanced_query_and_turn.2.2 okDeps exCm "what about that?" "c1"
     none ⟨"Generated explanation.", []⟩ rfl⟩

/-- External collaborators whose generation calls always fail. -/
def failDeps : ExternalDeps :=
  { parse_query := fun _ => ⟨none⟩
    retrieve_with_context := fun _ _ _ _ => []
    generate_with_citations := fun _ _ _ => .error "generation unavailable"
    generate_structured_explanation := fun _ _ _ =>
      .error "generation unavailable" }

/-- Witness for C9: with failing generation, the turn log of `c1` is
untouched by a direct follow-up call, by an orchestrated follow-up
request, and by an orchestrated initial request. -/
theorem externalFailure_preserves_turns_witness :
    turnsOf (process_followup failDeps exCm "what about that?" "c1"
      none).2 "c1" = turnsOf exCm "c1" ∧
    turnsOf (task2_process_query failDeps exCm "hello" (some "c1") none
      "fresh").2 "c1" = turnsOf exCm "c1" ∧
    turnsOf (task2_process_query failDeps exCm
      "summarize recent complaint volumes and staffing levels" (some "c1")
      none "fresh").2 "c1" = turnsOf exCm "c1" :=
  ⟨externalFailure_preserves_turns.1 failDeps exCm "what about that?" "c1"
     none "generation unavailable" rfl "c1",
   externalFailure_preserves_turns.2 failDeps exCm "hello" (some "c1") none
     "fresh" "generation unavailable" rfl "c1",
   externalFailure_preserves_turns.2 failDeps exCm
     "summarize recent complaint volumes and staffing levels" (some "c1")
     none "fresh" "generation unavailable" rfl "c1"⟩
